import Mathlib

/-!
Shallow embedding of the validation-and-import pipeline of
`src/database.py.py` (class `DatabaseManager`).

Raw CSV cell values (as pandas hands them to the validators) are modelled by
`PyVal`: a cell is either missing (`nan`, pandas NaN), a text cell, or a
numeric cell (exact rational, modelling the decimal values the claims probe).
`pyStr`, `pyInt`, `pyFloat` model Python `str()`, `int()`, `float()` on such a
cell; the `Option` result of the parsers models a raised `ValueError`
(`none` = the call raises). `float()` of NaN does not raise but yields NaN,
so `pyFloat` returns `Option (Option ℚ)`: outer `none` = raises, inner
`none` = the NaN float value.

All string work is done on `List Char` with structural recursion so that every
definition evaluates by kernel reduction.
-/

inductive PyVal where
  | nan : PyVal
  | s : String → PyVal
  | num : ℚ → PyVal
deriving DecidableEq

/-- Digits of a decimal numeral, most significant first, as a natural. -/
def natOfDigits (l : List Char) : ℕ :=
  l.foldl (fun a c => a * 10 + (c.toNat - 48)) 0

/-- Split a character list at every occurrence of the separator character
(models Python `str.split` with a one-character separator, which is what both
`splitOn "-"` and `splitOn "."` uses below need). -/
def splitChar (sep : Char) : List Char → List (List Char)
  | [] => [[]]
  | c :: rest =>
    let r := splitChar sep rest
    if c = sep then [] :: r
    else
      match r with
      | [] => [[c]]
      | g :: gs => (c :: g) :: gs

/-- Python `str.strip()` (whitespace at both ends). -/
def trimChars (l : List Char) : List Char :=
  ((l.dropWhile Char.isWhitespace).reverse.dropWhile Char.isWhitespace).reverse

def allDigits (l : List Char) : Bool := l.all Char.isDigit

/-- Regex `^[A-Za-z]+$` (used for `first_name` and `last_name`). -/
def matchesAlpha (t : String) : Bool :=
  !t.data.isEmpty && t.data.all Char.isAlpha

/-- Regex `^[0-9]{10}$` (phone_number). -/
def matchesPhone (t : String) : Bool :=
  t.data.length == 10 && allDigits t.data

/-- Regex `^[0-9]{1,20}$` (account_number). -/
def matchesAccount (t : String) : Bool :=
  decide (1 ≤ t.data.length ∧ t.data.length ≤ 20) && allDigits t.data

/-- Regex `^[0-9]{2}[A-Z]{2}[0-9]{4}$` (quarter_no). -/
def matchesQuarter (t : String) : Bool :=
  match t.data with
  | [a, b, c, d, e, f, g, h] =>
    a.isDigit && b.isDigit && c.isUpper && d.isUpper &&
    e.isDigit && f.isDigit && g.isDigit && h.isDigit
  | _ => false

/-- Regex `^[A-Z]{4}[0-9]{5,}$` (ifsc_code). -/
def matchesIFSC (t : String) : Bool :=
  match t.data with
  | a :: b :: c :: d :: rest =>
    a.isUpper && b.isUpper && c.isUpper && d.isUpper &&
    decide (5 ≤ rest.length) && allDigits rest
  | _ => false

/-- Regex `^[a-zA-Z]+[.][a-zA-Z]+@sail[.]bokaro[.]com$` (email_id): an
alphabetic local word, a dot, an alphabetic local word, then the literal
domain suffix. -/
def matchesEmail (t : String) : Bool :=
  let suffix := "@sail.bokaro.com".data
  suffix.isSuffixOf t.data &&
  (match splitChar '.' (t.data.take (t.data.length - suffix.length)) with
   | [a, b] => !a.isEmpty && a.all Char.isAlpha && !b.isEmpty && b.all Char.isAlpha
   | _ => false)

/-- Days of a month, Gregorian, as `datetime.strptime` validates them. -/
def daysInMonth (y m : ℕ) : ℕ :=
  if m = 2 then
    (if (y % 4 = 0 ∧ y % 100 ≠ 0) ∨ y % 400 = 0 then 29 else 28)
  else if m = 4 ∨ m = 6 ∨ m = 9 ∨ m = 11 then 30
  else 31

/-- `datetime.strptime(v, %Y-%m-%d)` succeeds: a 4-digit year, a 1-2 digit
month in 1..12, a 1-2 digit day within the month (strptime range-checks the
day against the month and leap year, raising `ValueError` otherwise). -/
def matchesDate (t : String) : Bool :=
  match splitChar '-' t.data with
  | [y, m, d] =>
    y.length == 4 && allDigits y &&
    decide (1 ≤ m.length ∧ m.length ≤ 2) && allDigits m &&
    decide (1 ≤ natOfDigits m ∧ natOfDigits m ≤ 12) &&
    decide (1 ≤ d.length ∧ d.length ≤ 2) && allDigits d &&
    decide (1 ≤ natOfDigits d ∧ natOfDigits d ≤ daysInMonth (natOfDigits y) (natOfDigits m))
  | _ => false

/-- Python `str()` of a cell value: NaN prints as `nan`; integral numerics
print as their integer numeral (the case CSV cells actually take). -/
def pyStr (v : PyVal) : String :=
  match v with
  | .nan => "nan"
  | .s t => t
  | .num q => if q.den = 1 then toString q.num else toString q

/-- Python `int(str)`: optional sign then decimal digits, else `ValueError`. -/
def parseIntStr (t : String) : Option ℤ :=
  match trimChars t.data with
  | [] => none
  | c :: rest =>
    if c = '-' then
      (if !rest.isEmpty && allDigits rest then some (-(natOfDigits rest : ℤ)) else none)
    else if c = '+' then
      (if !rest.isEmpty && allDigits rest then some (natOfDigits rest : ℤ) else none)
    else if allDigits (c :: rest) then some (natOfDigits (c :: rest) : ℤ)
    else none

/-- Python `int()` of a cell: raises (`none`) on NaN or non-numeric text;
truncates a numeric toward zero. -/
def pyInt (v : PyVal) : Option ℤ :=
  match v with
  | .nan => none
  | .num q => some (q.num / (q.den : ℤ))
  | .s t => parseIntStr t

/-- Unsigned decimal numeral with an optional fraction part (`float()`). -/
def parseUnsignedDec (l : List Char) : Option ℚ :=
  match splitChar '.' l with
  | [a] => if !a.isEmpty && allDigits a then some (natOfDigits a : ℚ) else none
  | [a, b] =>
    if allDigits a && allDigits b && (!a.isEmpty || !b.isEmpty) then
      some ((natOfDigits (a ++ b) : ℚ) / ((10 : ℚ) ^ b.length))
    else none
  | _ => none

/-- Python `float(str)`: optional sign then decimal numeral, else raises. -/
def parseDecStr (t : String) : Option ℚ :=
  match trimChars t.data with
  | '-' :: rest => (parseUnsignedDec rest).map (fun q => -q)
  | '+' :: rest => parseUnsignedDec rest
  | l => parseUnsignedDec l

/-- Python `float()` of a cell. Outer `none`: the call raises `ValueError`
(non-numeric text). Inner `none`: the resulting float is NaN (`float` of a
missing cell does not raise, it returns NaN). -/
def pyFloat (v : PyVal) : Option (Option ℚ) :=
  match v with
  | .nan => some none
  | .num q => some (some q)
  | .s t => (parseDecStr t).map some

/-- `x <= c` on a Python float that may be NaN: every comparison with NaN is
false. -/
def fltLe (x : Option ℚ) (c : ℚ) : Bool :=
  match x with
  | some v => decide (v ≤ c)
  | none => false

/-- `x < 0` on a possibly-NaN float. -/
def fltNeg (x : Option ℚ) : Bool :=
  match x with
  | some v => decide (v < 0)
  | none => false

/-- `x > c` on a possibly-NaN float. -/
def fltGt (x : Option ℚ) (c : ℚ) : Bool :=
  match x with
  | some v => decide (c < v)
  | none => false

/-- `DatabaseManager.validate_ifsc_code` (source lines 232-237): NaN fails
explicitly; otherwise the stringified, stripped value must match
`^[A-Z]{4}[0-9]{5,}$`. -/
def validate_ifsc_code (v : PyVal) : Bool :=
  match v with
  | .nan => false
  | _ => matchesIFSC (String.mk (trimChars (pyStr v).data))

/-- A raw employee CSV row, restricted to the fields consulted by the
validator and the employee loop. -/
structure EmpRowRaw where
  employee_id : PyVal
  first_name : PyVal
  last_name : PyVal
  date_of_joining : PyVal
  quarter_no : PyVal
  email_id : PyVal
  phone_number : PyVal
  ifsc_code : PyVal
  account_number : PyVal
deriving DecidableEq

/-- `DatabaseManager.validate_employee_data` (source lines 239-281). Checks
run in source order, first failure wins; the surrounding `try`/`except`
converts a raised `ValueError` (modelled by `pyInt` returning `none`) into
`(False, "Validation error: ...")`. -/
def validate_employee_data (r : EmpRowRaw) : Bool × Option String :=
  match pyInt r.employee_id with
  | none => (false, some "Validation error")
  | some eid =>
    if ¬ (1000000 ≤ eid ∧ eid ≤ 9999999) then (false, some "Invalid employee_id")
    else if matchesAlpha (pyStr r.first_name) = false then (false, some "Invalid first_name")
    else if matchesAlpha (pyStr r.last_name) = false then (false, some "Invalid last_name")
    else if matchesDate (pyStr r.date_of_joining) = false then (false, some "Invalid date_of_joining")
    else if pyStr r.quarter_no ≠ "NA" ∧ matchesQuarter (pyStr r.quarter_no) = false then
      (false, some "Invalid quarter_no")
    else if matchesEmail (pyStr r.email_id) = false then (false, some "Invalid email_id")
    else if matchesPhone (pyStr r.phone_number) = false then (false, some "Invalid phone_number")
    else if validate_ifsc_code r.ifsc_code = false then (false, some "Invalid ifsc_code")
    else if matchesAccount (pyStr r.account_number) = false then (false, some "Invalid account_number")
    else (true, none)

/-- A raw pay-structure CSV row. `pay_id` and `employee_id` are the integer
key columns; the remaining component cells keep their raw `PyVal` form. -/
structure PayRowRaw where
  pay_id : ℤ
  employee_id : ℤ
  base_salary : PyVal
  ta : PyVal
  da : PyVal
  hra : PyVal
  stocks : PyVal
  vacation_tour : PyVal
  uniform_allowance : PyVal
  medical_benefits : PyVal
  bonus_amount : PyVal
  other_allowances : PyVal
deriving DecidableEq

/-- `DatabaseManager.validate_pay_data` (source lines 283-301), in source
order: `base_salary > 20000` strictly, then the non-negative loop over
`da, hra, stocks, vacation_tour, medical_benefits`, then
`bonus_amount <= 25000`. A `float()` `ValueError` anywhere is caught by the
surrounding `except` and reported as `(False, "Validation error: ...")`.
Note the loop does not include `ta`, `uniform_allowance` or
`other_allowances`, and a NaN float compares false against every bound. -/
def validate_pay_data (r : PayRowRaw) : Bool × Option String :=
  match pyFloat r.base_salary with
  | none => (false, some "Validation error")
  | some b =>
    if fltLe b 20000 then (false, some "Invalid base_salary")
    else match pyFloat r.da with
    | none => (false, some "Validation error")
    | some vda =>
      if fltNeg vda then (false, some "Invalid da")
      else match pyFloat r.hra with
      | none => (false, some "Validation error")
      | some vhra =>
        if fltNeg vhra then (false, some "Invalid hra")
        else match pyFloat r.stocks with
        | none => (false, some "Validation error")
        | some vst =>
          if fltNeg vst then (false, some "Invalid stocks")
          else match pyFloat r.vacation_tour with
          | none => (false, some "Validation error")
          | some vvt =>
            if fltNeg vvt then (false, some "Invalid vacation_tour")
            else match pyFloat r.medical_benefits with
            | none => (false, some "Validation error")
            | some vmb =>
              if fltNeg vmb then (false, some "Invalid medical_benefits")
              else match pyFloat r.bonus_amount with
              | none => (false, some "Validation error")
              | some vbon =>
                if fltGt vbon 25000 then (false, some "Invalid bonus_amount")
                else (true, none)

/-!
The server-side tax routine `calculate_income_tax` (source lines 200-225,
the plpgsql function installed by `create_tables`). PostgreSQL `NUMERIC`
arithmetic is exact decimal arithmetic, modelled by `ℚ`; `ROUND(x, 2)`
rounds half away from zero to 2 fractional digits.
-/

/-- `ROUND(x, 2)` of PostgreSQL numeric: half away from zero. -/
def roundTo2 (x : ℚ) : ℚ :=
  if x < 0 then -(((⌊(-x) * 100 + 1/2⌋ : ℤ) : ℚ) / 100)
  else ((⌊x * 100 + 1/2⌋ : ℤ) : ℚ) / 100

/-- Branch body of the first tax band (`annual_income <= 300000`). -/
def taxBand1 (_x : ℚ) : ℚ := 0

/-- Branch body of the second tax band (`<= 600000`). -/
def taxBand2 (x : ℚ) : ℚ := (x - 300000) * 0.05

/-- Branch body of the third tax band (`<= 900000`). -/
def taxBand3 (x : ℚ) : ℚ := 15000 + (x - 600000) * 0.10

/-- Branch body of the fourth tax band (`<= 1200000`). -/
def taxBand4 (x : ℚ) : ℚ := 45000 + (x - 900000) * 0.15

/-- Branch body of the fifth tax band (`<= 1500000`). -/
def taxBand5 (x : ℚ) : ℚ := 90000 + (x - 1200000) * 0.20

/-- Branch body of the top tax band (`ELSE`). -/
def taxBand6 (x : ℚ) : ℚ := 150000 + (x - 1500000) * 0.30

/-- The `IF`/`ELSIF` cascade of `calculate_income_tax` assigning `tax`. -/
def annualTax (annual_income : ℚ) : ℚ :=
  if annual_income ≤ 300000 then taxBand1 annual_income
  else if annual_income ≤ 600000 then taxBand2 annual_income
  else if annual_income ≤ 900000 then taxBand3 annual_income
  else if annual_income ≤ 1200000 then taxBand4 annual_income
  else if annual_income ≤ 1500000 then taxBand5 annual_income
  else taxBand6 annual_income

/-- `calculate_income_tax(annual_income)`: the band cascade, then
`ROUND(tax / 12, 2)` — the monthly figure. -/
def calculate_income_tax (annual_income : ℚ) : ℚ :=
  roundTo2 (annualTax annual_income / 12)

/-- Modelled from the spec: the portion of income `x` that falls inside the
band `[lo, hi]`. -/
def bandPortion (lo hi x : ℚ) : ℚ := max 0 (min x hi - lo)

/-- Modelled from the spec (section 4.4): the standard marginal-bracket
computation — each band taxes only the portion of income within it, and the
band taxes are summed. Written to compare with `annualTax` from the source. -/
def specMarginalTax (x : ℚ) : ℚ :=
  0 * bandPortion 0 300000 x +
  0.05 * bandPortion 300000 600000 x +
  0.10 * bandPortion 600000 900000 x +
  0.15 * bandPortion 900000 1200000 x +
  0.20 * bandPortion 1200000 1500000 x +
  0.30 * max 0 (x - 1500000)

/-!
The Import Orchestrator: `DatabaseManager.import_data` (source lines
303-424). Rows are paired with a `Bool` telling whether the database insert
for that row would succeed (the external database is the oracle; `False`
models a constraint violation raised as `psycopg2.Error` and caught by the
per-row handler). The per-kind counters are the local variables
`successful_inserts`/`failed_inserts` and `pay_successful`/`pay_failed`,
initialized to 0 inside `import_data`; the accepted-identity set is the
instance attribute `self.successful_employee_ids`, initialized in
`DatabaseManager.__init__` and threaded through every call.
-/

/-- `employees_df.fillna(the string NA)` applied to one cell. -/
def fillNA (v : PyVal) : PyVal :=
  match v with
  | .nan => .s "NA"
  | v => v

/-- `employees_df.fillna(...)` applied to one employee row (source line 309). -/
def fillEmp (r : EmpRowRaw) : EmpRowRaw :=
  { employee_id := fillNA r.employee_id
    first_name := fillNA r.first_name
    last_name := fillNA r.last_name
    date_of_joining := fillNA r.date_of_joining
    quarter_no := fillNA r.quarter_no
    email_id := fillNA r.email_id
    phone_number := fillNA r.phone_number
    ifsc_code := fillNA r.ifsc_code
    account_number := fillNA r.account_number }

/-- The in-loop mutation `row[ifsc] = str(row[ifsc]).strip()` (source lines
315-316). -/
def stripIfsc (r : EmpRowRaw) : EmpRowRaw :=
  { r with ifsc_code := .s (String.mk (trimChars (pyStr r.ifsc_code).data)) }

/-- `int(row[employee_id])` as used after validation has succeeded. -/
def eidOf (r : EmpRowRaw) : ℤ := (pyInt r.employee_id).getD 0

/-- One iteration of the employee import loop (source lines 314-345), acting
on the state (accepted-identity set, successful_inserts, failed_inserts).
`insOk` is the verdict of the database on the INSERT.  The `employee_id` is added
to `self.successful_employee_ids` only after the INSERT succeeded. -/
def stepEmp (st : Finset ℤ × ℕ × ℕ) (r : EmpRowRaw) (insOk : Bool) : Finset ℤ × ℕ × ℕ :=
  let r2 := stripIfsc r
  if (validate_employee_data r2).1 = true then
    if insOk then (insert (eidOf r2) st.1, st.2.1 + 1, st.2.2)
    else (st.1, st.2.1, st.2.2 + 1)
  else (st.1, st.2.1, st.2.2 + 1)

/-- The employee import loop. -/
def processEmployees (st : Finset ℤ × ℕ × ℕ) : List (EmpRowRaw × Bool) → Finset ℤ × ℕ × ℕ
  | [] => st
  | (r, insOk) :: rest => processEmployees (stepEmp st r insOk) rest

/-- `pay_df[nullable_columns].fillna(0)` (source lines 352-354): only
`ta, stocks, vacation_tour, uniform_allowance, other_allowances` are filled. -/
def fill0 (v : PyVal) : PyVal :=
  match v with
  | .nan => .num 0
  | v => v

/-- NaN-filling of one pay row over the five nullable columns. -/
def fillPay (r : PayRowRaw) : PayRowRaw :=
  { r with
    ta := fill0 r.ta
    stocks := fill0 r.stocks
    vacation_tour := fill0 r.vacation_tour
    uniform_allowance := fill0 r.uniform_allowance
    other_allowances := fill0 r.other_allowances }

/-- A pandas cell read as a number for column arithmetic (NaN = `none`). -/
def pdNum (v : PyVal) : Option ℚ :=
  match v with
  | .nan => none
  | .num q => some q
  | .s t => parseDecStr t

/-- Pandas addition on possibly-NaN column values: NaN propagates. -/
def fAdd (x y : Option ℚ) : Option ℚ :=
  match x, y with
  | some a, some b => some (a + b)
  | _, _ => none

/-- Pandas scalar multiplication on a possibly-NaN column value. -/
def fMulC (x : Option ℚ) (c : ℚ) : Option ℚ := x.map (fun a => a * c)

/-- `pay_df[annual_income]` (source lines 357-367), computed on a (filled)
pay row, in the operand order of the source:
`base*12 + ta*12 + da*12 + hra*12 + uniform_allowance*12 + stocks +
vacation_tour + medical_benefits + bonus_amount`. This derived column is fed
to the tax function and is not part of the INSERT column list. -/
def annual_income (r : PayRowRaw) : Option ℚ :=
  fAdd (fAdd (fAdd (fAdd (fAdd (fAdd (fAdd (fAdd
    (fMulC (pdNum r.base_salary) 12)
    (fMulC (pdNum r.ta) 12))
    (fMulC (pdNum r.da) 12))
    (fMulC (pdNum r.hra) 12))
    (fMulC (pdNum r.uniform_allowance) 12))
    (pdNum r.stocks))
    (pdNum r.vacation_tour))
    (pdNum r.medical_benefits))
    (pdNum r.bonus_amount)

/-- The column list of the pay INSERT statement (source lines 400-407). -/
def payInsertColumns : List String :=
  ["pay_id", "employee_id", "base_salary", "ta", "da", "hra",
   "stocks", "vacation_tour", "uniform_allowance",
   "medical_benefits", "bonus_amount", "other_allowances",
   "income_tax"]

/-- `float()` of a cell flattened to a single optional rational (`none` when
the call would raise or the value is NaN). -/
def pyFloatFlat (v : PyVal) : Option ℚ := (pyFloat v).bind id

/-- The `values` tuple of the pay INSERT (source lines 384-398), in column
order; the last entry is the monthly tax obtained from the database call
`SELECT calculate_income_tax(annual_income)`. -/
def payInsertValues (r : PayRowRaw) : List (Option ℚ) :=
  [some (r.pay_id : ℚ), some (r.employee_id : ℚ),
   pyFloatFlat r.base_salary, pyFloatFlat r.ta, pyFloatFlat r.da,
   pyFloatFlat r.hra, pyFloatFlat r.stocks, pyFloatFlat r.vacation_tour,
   pyFloatFlat r.uniform_allowance, pyFloatFlat r.medical_benefits,
   pyFloatFlat r.bonus_amount, pyFloatFlat r.other_allowances,
   (annual_income r).map calculate_income_tax]

/-- The CHECK constraints of the `pay_structure` table (source lines
162-190): `base_salary > 20000`, `da >= 0`, `hra >= 0`, `stocks >= 0`,
`vacation_tour >= 0`, `medical_benefits >= 0`, `bonus_amount <= 25000`.
The columns `ta`, `uniform_allowance` and `other_allowances` carry only a
DEFAULT, no CHECK. -/
def payTableChecks (base da hra stocks vacation medical bonus : ℚ) : Bool :=
  decide (20000 < base) && decide (0 ≤ da) && decide (0 ≤ hra) &&
  decide (0 ≤ stocks) && decide (0 ≤ vacation) && decide (0 ≤ medical) &&
  decide (bonus ≤ 25000)

/-- Outcome of one pay-row iteration. -/
inductive PayResult where
  | accepted : PayResult
  | failedUnknownEmployee : PayResult
  | failedInvalid : Option String → PayResult
  | failedInsert : PayResult
deriving DecidableEq

/-- One iteration of the pay import loop (source lines 372-418). The first
test is the referential gate `int(row[employee_id]) in
self.successful_employee_ids`; only inside its then-branch is
`validate_pay_data` called. The second component of the result records
whether `validate_pay_data` was invoked for this row at all. -/
def processPayRow (ids : Finset ℤ) (r : PayRowRaw) (insOk : Bool) : PayResult × Bool :=
  if r.employee_id ∈ ids then
    let v := validate_pay_data r
    if v.1 = true then
      (if insOk then (.accepted, true) else (.failedInsert, true))
    else (.failedInvalid v.2, true)
  else (.failedUnknownEmployee, false)

/-- Counter update of one pay-row iteration (`pay_successful`/`pay_failed`). -/
def stepPay (ids : Finset ℤ) (c : ℕ × ℕ) (p : PayRowRaw × Bool) : ℕ × ℕ :=
  match (processPayRow ids p.1 p.2).1 with
  | .accepted => (c.1 + 1, c.2)
  | _ => (c.1, c.2 + 1)

/-- The pay import loop. -/
def processPays (ids : Finset ℤ) (c : ℕ × ℕ) : List (PayRowRaw × Bool) → ℕ × ℕ
  | [] => c
  | p :: rest => processPays ids (stepPay ids c p) rest

/-- The mutable state of a `DatabaseManager` instance that `import_data`
reads and writes: the attribute `self.successful_employee_ids`. -/
structure DBM where
  successful_employee_ids : Finset ℤ
deriving DecidableEq

/-- `DatabaseManager.__init__` (source lines 24-35): the accepted-identity
set starts empty at construction of the instance. -/
def DBM.init : DBM := ⟨∅⟩

/-- `DatabaseManager.import_data(self, employee_file, pay_file)`: NaN-fill
both dataframes, run the employee loop (counters starting at 0, identity set
starting at `self.successful_employee_ids` — the attribute is not reset),
then run the pay loop (counters starting at 0) against the resulting identity
set. Returns the updated instance state, the employee counts
(successful, failed) and the pay counts (successful, failed). -/
def import_data (self : DBM) (emps : List (EmpRowRaw × Bool))
    (pays : List (PayRowRaw × Bool)) : DBM × (ℕ × ℕ) × (ℕ × ℕ) :=
  let e := processEmployees (self.successful_employee_ids, 0, 0)
    (emps.map (fun p => (fillEmp p.1, p.2)))
  let pc := processPays e.1 (0, 0) (pays.map (fun p => (fillPay p.1, p.2)))
  (⟨e.1⟩, (e.2.1, e.2.2), pc)

/-!
The Connection Manager: `DatabaseManager.verify_database_exists` (source
lines 83-107) and `DatabaseManager.connect_to_psu_db` (source lines
109-134). The database server is the oracle: `databases` is the catalog
`pg_database` seen by the throwaway administrative session that
`verify_database_exists` opens against the `postgres` database, and
`attemptOk i` tells whether the i-th connection attempt to the target
database succeeds. `time.sleep` calls are recorded in the trace.
-/

def db_name : String := "employeedb"

def max_retries : ℕ := 5

def retry_delay : ℕ := 3

/-- `verify_database_exists`: the catalog lookup of the throwaway session,
`SELECT 1 FROM pg_database WHERE datname = db_name`. -/
def verify_database_exists (databases : List String) : Bool :=
  databases.contains db_name

inductive ConnOutcome where
  | connected : ConnOutcome
  | errNoDatabase : ConnOutcome
  | errExhausted : ConnOutcome
deriving DecidableEq

/-- Observable behaviour of one `connect_to_psu_db` call: its outcome, how
many connection attempts to the target database were made, and the sequence
of back-off sleeps (in seconds) performed between consecutive attempts. -/
structure ConnTrace where
  outcome : ConnOutcome
  attempts : ℕ
  sleeps : List ℕ
deriving DecidableEq

/-- The `for attempt in range(self.max_retries)` loop (source lines
114-134): try to connect; on failure, if this is not the last attempt, sleep
`self.retry_delay * (attempt + 1)` seconds and continue, otherwise re-raise
(fatal). -/
def connectFrom (attemptOk : ℕ → Bool) (made : ℕ) (sl : List ℕ) : List ℕ → ConnTrace
  | [] => ⟨.errExhausted, made, sl⟩
  | a :: rest =>
    if attemptOk a then ⟨.connected, made + 1, sl⟩
    else if rest.isEmpty then ⟨.errExhausted, made + 1, sl⟩
    else connectFrom attemptOk (made + 1) (sl ++ [retry_delay * (a + 1)]) rest

/-- `connect_to_psu_db`: first the schema-existence precondition over the
throwaway administrative session; its failure raises immediately, before any
connection attempt to the target database. Otherwise the bounded retry loop
runs. -/
def connect_to_psu_db (databases : List String) (attemptOk : ℕ → Bool) : ConnTrace :=
  if verify_database_exists databases then
    connectFrom attemptOk 0 [] (List.range max_retries)
  else ⟨.errNoDatabase, 0, []⟩

lemma bandPortion_of_le (lo hi x : ℚ) (h : x ≤ lo) (hlo : lo ≤ hi) :
    bandPortion lo hi x = 0 := by
  unfold bandPortion
  rw [min_eq_left (le_trans h hlo), max_eq_left (by linarith)]

lemma bandPortion_of_mem (lo hi x : ℚ) (h1 : lo ≤ x) (h2 : x ≤ hi) :
    bandPortion lo hi x = x - lo := by
  unfold bandPortion
  rw [min_eq_left h2, max_eq_right (by linarith)]

lemma bandPortion_of_ge (lo hi x : ℚ) (h1 : hi ≤ x) (h2 : lo ≤ hi) :
    bandPortion lo hi x = hi - lo := by
  unfold bandPortion
  rw [min_eq_right h1, max_eq_right (by linarith)]

lemma bandPortion_nonneg (lo hi x : ℚ) : 0 ≤ bandPortion lo hi x :=
  le_max_left _ _

lemma annualTax_eq_specMarginalTax (x : ℚ) : annualTax x = specMarginalTax x := by
  unfold annualTax specMarginalTax
  split_ifs with h1 h2 h3 h4 h5
  · rw [bandPortion_of_le 300000 600000 x (by linarith) (by norm_num),
      bandPortion_of_le 600000 900000 x (by linarith) (by norm_num),
      bandPortion_of_le 900000 1200000 x (by linarith) (by norm_num),
      bandPortion_of_le 1200000 1500000 x (by linarith) (by norm_num),
      max_eq_left (by linarith : x - 1500000 ≤ 0)]
    unfold taxBand1; ring
  · rw [bandPortion_of_mem 300000 600000 x (by linarith) (by linarith),
      bandPortion_of_le 600000 900000 x (by linarith) (by norm_num),
      bandPortion_of_le 900000 1200000 x (by linarith) (by norm_num),
      bandPortion_of_le 1200000 1500000 x (by linarith) (by norm_num),
      max_eq_left (by linarith : x - 1500000 ≤ 0)]
    unfold taxBand2; ring
  · rw [bandPortion_of_ge 300000 600000 x (by linarith) (by norm_num),
      bandPortion_of_mem 600000 900000 x (by linarith) (by linarith),
      bandPortion_of_le 900000 1200000 x (by linarith) (by norm_num),
      bandPortion_of_le 1200000 1500000 x (by linarith) (by norm_num),
      max_eq_left (by linarith : x - 1500000 ≤ 0)]
    unfold taxBand3; ring
  · rw [bandPortion_of_ge 300000 600000 x (by linarith) (by norm_num),
      bandPortion_of_ge 600000 900000 x (by linarith) (by norm_num),
      bandPortion_of_mem 900000 1200000 x (by linarith) (by linarith),
      bandPortion_of_le 1200000 1500000 x (by linarith) (by norm_num),
      max_eq_left (by linarith : x - 1500000 ≤ 0)]
    unfold taxBand4; ring
  · rw [bandPortion_of_ge 300000 600000 x (by linarith) (by norm_num),
      bandPortion_of_ge 600000 900000 x (by linarith) (by norm_num),
      bandPortion_of_ge 900000 1200000 x (by linarith) (by norm_num),
      bandPortion_of_mem 1200000 1500000 x (by linarith) (by linarith),
      max_eq_left (by linarith : x - 1500000 ≤ 0)]
    unfold taxBand5; ring
  · rw [bandPortion_of_ge 300000 600000 x (by linarith) (by norm_num),
      bandPortion_of_ge 600000 900000 x (by linarith) (by norm_num),
      bandPortion_of_ge 900000 1200000 x (by linarith) (by norm_num),
      bandPortion_of_ge 1200000 1500000 x (by linarith) (by norm_num),
      max_eq_right (by linarith : (0:ℚ) ≤ x - 1500000)]
    unfold taxBand6; ring

lemma bandPortion_mono (lo hi : ℚ) {x y : ℚ} (h : x ≤ y) :
    bandPortion lo hi x ≤ bandPortion lo hi y := by
  unfold bandPortion
  exact max_le_max le_rfl (sub_le_sub_right (min_le_min h le_rfl) lo)

lemma annualTax_mono {x y : ℚ} (h : x ≤ y) : annualTax x ≤ annualTax y := by
  unfold annualTax taxBand1 taxBand2 taxBand3 taxBand4 taxBand5 taxBand6
  split_ifs <;> linarith

lemma annualTax_nonneg (x : ℚ) : 0 ≤ annualTax x := by
  unfold annualTax taxBand1 taxBand2 taxBand3 taxBand4 taxBand5 taxBand6
  split_ifs <;> linarith

lemma roundTo2_mono_nonneg {x y : ℚ} (hx : 0 ≤ x) (h : x ≤ y) :
    roundTo2 x ≤ roundTo2 y := by
  unfold roundTo2
  rw [if_neg (not_lt.mpr hx), if_neg (not_lt.mpr (le_trans hx h))]
  have hf : ⌊x * 100 + 1/2⌋ ≤ ⌊y * 100 + 1/2⌋ := Int.floor_le_floor (by linarith)
  have hc : ((⌊x * 100 + 1/2⌋ : ℤ) : ℚ) ≤ ((⌊y * 100 + 1/2⌋ : ℤ) : ℚ) := by
    exact_mod_cast hf
  linarith

lemma calculate_income_tax_mono {x y : ℚ} (h : x ≤ y) :
    calculate_income_tax x ≤ calculate_income_tax y := by
  unfold calculate_income_tax
  apply roundTo2_mono_nonneg
  · exact div_nonneg (annualTax_nonneg x) (by norm_num)
  · have hs := annualTax_mono h
    linarith

/-- C1: the monthly income tax function of `create_tables` is the marginal
six-band bracket computation on annual income (0% up to 300000, 5% to
600000, 10% to 900000, 15% to 1200000, 20% to 1500000, 30% above), summed
across bands, divided by 12 and rounded to 2 decimal places; for annual
income 913000 it returns 3912.50. -/
theorem tax_is_marginal_bracket :
    (∀ x : ℚ, calculate_income_tax x = roundTo2 (specMarginalTax x / 12)) ∧
    calculate_income_tax 913000 = 3912.5 := by
  constructor
  · intro x
    unfold calculate_income_tax
    rw [annualTax_eq_specMarginalTax]
  · norm_num [calculate_income_tax, annualTax, taxBand4, roundTo2]

/-- C8: the monthly income tax function is deterministic (it is a pure
function of its argument) and monotone non-decreasing, and at each band
boundary the branch formulas of the adjoining bands agree exactly (hence
within rounding tolerance). -/
theorem tax_monotone_and_boundary_consistent :
    (∀ x y : ℚ, x ≤ y → calculate_income_tax x ≤ calculate_income_tax y) ∧
    taxBand1 300000 = taxBand2 300000 ∧
    taxBand2 600000 = taxBand3 600000 ∧
    taxBand3 900000 = taxBand4 900000 ∧
    taxBand4 1200000 = taxBand5 1200000 ∧
    taxBand5 1500000 = taxBand6 1500000 := by
  refine ⟨fun x y h => calculate_income_tax_mono h, ?_, ?_, ?_, ?_, ?_⟩ <;>
    norm_num [taxBand1, taxBand2, taxBand3, taxBand4, taxBand5, taxBand6]

/-- Witness for C8: the monotonicity part applied at 600000 and 913000. -/
theorem tax_monotone_witness :
    calculate_income_tax 600000 ≤ calculate_income_tax 913000 :=
  tax_monotone_and_boundary_consistent.1 600000 913000 (by norm_num)

def empArjun : EmpRowRaw :=
  { employee_id := .num 1234567, first_name := .s "Arjun", last_name := .s "Rao",
    date_of_joining := .s "2020-01-15", quarter_no := .s "NA",
    email_id := .s "arjun.rao@sail.bokaro.com", phone_number := .s "9876543210",
    ifsc_code := .s "SBIN00001", account_number := .s "123456789" }

def payArjun : PayRowRaw :=
  { pay_id := 1, employee_id := 1234567, base_salary := .num 50000,
    ta := .nan, da := .num 10000, hra := .num 15000, stocks := .nan,
    vacation_tour := .nan, uniform_allowance := .nan,
    medical_benefits := .num 5000, bonus_amount := .num 8000,
    other_allowances := .nan }

def optQ (v : PyVal) : ℚ :=
  match v with
  | .num q => q
  | _ => 0

/-- C2: a pay row whose `employee_id` is not in the accepted-identity set of
the current run is rejected and counted as failed, for every row — valid
fields or not — and the referential check precedes any pay-field validation:
the second component of `processPayRow` records whether `validate_pay_data`
was invoked, and it is `false` here. -/
theorem pay_unknown_employee_rejected_before_validation :
    ∀ (ids : Finset ℤ) (r : PayRowRaw) (insOk : Bool) (s f : ℕ),
      r.employee_id ∉ ids →
      processPayRow ids r insOk = (PayResult.failedUnknownEmployee, false) ∧
      stepPay ids (s, f) (r, insOk) = (s, f + 1) := by
  intro ids r insOk s f h
  refine ⟨by simp [processPayRow, h], ?_⟩
  simp [stepPay, processPayRow, h]

/-- Witness for C2: a syntactically perfect pay row referencing an id no run
has accepted is rejected unseen by the validator. -/
theorem pay_unknown_employee_rejected_before_validation_witness :
    processPayRow (∅ : Finset ℤ) payArjun true = (PayResult.failedUnknownEmployee, false) ∧
    stepPay (∅ : Finset ℤ) (0, 0) (payArjun, true) = (0, 0 + 1) :=
  pay_unknown_employee_rejected_before_validation ∅ payArjun true 0 0 (by decide)

/-- C3: during employee import an `employee_id` enters the
accepted-identity set exactly when the row passes local validation and the
database insert succeeds; when the insert itself fails the row is counted as
rejected and the id is not added. -/
theorem employee_id_added_iff_valid_and_insert_ok :
    ∀ (ids : Finset ℤ) (s f : ℕ) (r : EmpRowRaw) (insOk : Bool),
      (∀ e : ℤ, e ∈ (stepEmp (ids, s, f) r insOk).1 ↔
        (e ∈ ids ∨ ((validate_employee_data (stripIfsc r)).1 = true ∧ insOk = true ∧
          e = eidOf (stripIfsc r)))) ∧
      ((validate_employee_data (stripIfsc r)).1 = true → insOk = false →
        stepEmp (ids, s, f) r insOk = (ids, s, f + 1)) := by
  intro ids s f r insOk
  constructor
  · intro e
    simp only [stepEmp]
    split_ifs with h1 h2 <;> simp_all [Finset.mem_insert] <;> tauto
  · intro hv hok
    simp [stepEmp, hv, hok]

/-- Witness for C3: a fully valid employee row whose insert fails leaves the
set unchanged and bumps the failed counter. -/
theorem employee_id_added_iff_valid_and_insert_ok_witness :
    stepEmp ((∅ : Finset ℤ), 0, 0) empArjun false = (∅, 0, 0 + 1) :=
  (employee_id_added_iff_valid_and_insert_ok ∅ 0 0 empArjun false).2 (by decide) rfl

lemma stepEmp_subset (st : Finset ℤ × ℕ × ℕ) (r : EmpRowRaw) (insOk : Bool) :
    st.1 ⊆ (stepEmp st r insOk).1 := by
  simp only [stepEmp]
  split_ifs <;> first
    | exact Finset.subset_insert _ _
    | exact Finset.Subset.refl _

lemma processEmployees_subset :
    ∀ (l : List (EmpRowRaw × Bool)) (st : Finset ℤ × ℕ × ℕ),
      st.1 ⊆ (processEmployees st l).1 := by
  intro l
  induction l with
  | nil => intro st; exact Finset.Subset.refl _
  | cons p rest ih =>
    intro st
    exact Finset.Subset.trans (stepEmp_subset st p.1 p.2) (ih _)

/-- C6 (amended): the per-kind counters are run-scoped — `import_data`
computes them from 0 on every invocation — and the accepted-identity set is
initialized empty at instance construction; but the set is instance state
carried across `import_data` invocations (never re-initialized per run), so
an identity accepted in an earlier run on the same instance does gate pay
rows of later runs. -/
theorem run_state_scoping_amended :
    ∀ (d : DBM) (emps : List (EmpRowRaw × Bool)) (pays : List (PayRowRaw × Bool))
      (r : PayRowRaw) (insOk : Bool),
      d.successful_employee_ids ⊆ ((import_data d emps pays).1).successful_employee_ids ∧
      DBM.init.successful_employee_ids = ∅ ∧
      (import_data d emps pays).2.1 =
        (processEmployees (d.successful_employee_ids, 0, 0)
          (emps.map (fun p => (fillEmp p.1, p.2)))).2 ∧
      (r.employee_id ∈ d.successful_employee_ids →
        (processPayRow d.successful_employee_ids r insOk).1 ≠ PayResult.failedUnknownEmployee) := by
  intro d emps pays r insOk
  refine ⟨?_, rfl, rfl, ?_⟩
  · exact processEmployees_subset (emps.map (fun p => (fillEmp p.1, p.2)))
      (d.successful_employee_ids, 0, 0)
  · intro h
    simp only [processPayRow, if_pos h]
    split_ifs <;> simp

/-- Witness for C6 (amended): an id already in the carried set admits a pay
row past the referential gate. -/
theorem run_state_scoping_amended_witness :
    (processPayRow ({1234567} : Finset ℤ) payArjun true).1 ≠ PayResult.failedUnknownEmployee :=
  (run_state_scoping_amended ⟨{1234567}⟩ [] [] payArjun true).2.2.2 (by decide)

/-- Counterexample for C6 as stated: after a first `import_data` run accepts
employee 1234567, the instance state entering a second run is not the empty
set, and the second run accepts (1 successful, 0 failed) a pay row
referencing that id — the re-initialization stated by the claim would have
rejected it as unknown. -/
theorem accepted_set_not_reinitialized_counterexample :
    (import_data DBM.init [(empArjun, true)] []).1.successful_employee_ids ≠ ∅ ∧
    (import_data (import_data DBM.init [(empArjun, true)] []).1 [] [(payArjun, true)]).2.2 =
      (1, 0) := by
  constructor
  · decide
  · decide

/-- C4: for every pay row (with numeric required components and
present-or-missing optional components) the derived annual income equals
12*(base_salary + ta + da + hra + uniform_allowance) + stocks +
vacation_tour + medical_benefits + bonus_amount with missing optional
components treated as 0, and the pay INSERT column list does not contain
`annual_income`. -/
theorem annual_income_formula_and_not_persisted :
    ∀ (r : PayRowRaw) (b d h m bo : ℚ),
      r.base_salary = PyVal.num b → r.da = PyVal.num d → r.hra = PyVal.num h →
      r.medical_benefits = PyVal.num m → r.bonus_amount = PyVal.num bo →
      (r.ta = PyVal.nan ∨ ∃ q, r.ta = PyVal.num q) →
      (r.stocks = PyVal.nan ∨ ∃ q, r.stocks = PyVal.num q) →
      (r.vacation_tour = PyVal.nan ∨ ∃ q, r.vacation_tour = PyVal.num q) →
      (r.uniform_allowance = PyVal.nan ∨ ∃ q, r.uniform_allowance = PyVal.num q) →
      annual_income (fillPay r) =
        some (12 * (b + optQ r.ta + d + h + optQ r.uniform_allowance) +
          optQ r.stocks + optQ r.vacation_tour + m + bo) ∧
      "annual_income" ∉ payInsertColumns := by
  intro r b d h m bo hb hd hh hm hbo hta hst hvt hua
  refine ⟨?_, by decide⟩
  rcases hta with hta | ⟨qta, hta⟩ <;> rcases hst with hst | ⟨qst, hst⟩ <;>
    rcases hvt with hvt | ⟨qvt, hvt⟩ <;> rcases hua with hua | ⟨qua, hua⟩ <;>
    simp [annual_income, fillPay, fill0, pdNum, fAdd, fMulC, optQ,
      hb, hd, hh, hm, hbo, hta, hst, hvt, hua] <;> ring

/-- Witness for C4: the end-to-end example row yields annual income 913000. -/
theorem annual_income_formula_and_not_persisted_witness :
    annual_income (fillPay payArjun) = some 913000 := by
  have hw := (annual_income_formula_and_not_persisted payArjun 50000 10000 15000 5000 8000
    rfl rfl rfl rfl rfl (Or.inl rfl) (Or.inl rfl) (Or.inl rfl) (Or.inl rfl)).1
  rw [hw]
  norm_num [payArjun, optQ]

lemma validate_pay_data_accepts (r : PayRowRaw) (b d h st v m bo : ℚ)
    (hb : r.base_salary = PyVal.num b) (hb0 : 20000 < b)
    (hd : r.da = PyVal.num d) (hd0 : 0 ≤ d)
    (hh : r.hra = PyVal.num h) (hh0 : 0 ≤ h)
    (hst : r.stocks = PyVal.num st) (hst0 : 0 ≤ st)
    (hv : r.vacation_tour = PyVal.num v) (hv0 : 0 ≤ v)
    (hm : r.medical_benefits = PyVal.num m) (hm0 : 0 ≤ m)
    (hbo : r.bonus_amount = PyVal.num bo) (hbo0 : bo ≤ 25000) :
    validate_pay_data r = (true, none) := by
  unfold validate_pay_data
  rw [hb, hd, hh, hst, hv, hm, hbo]
  simp only [pyFloat, fltLe, fltNeg, fltGt, decide_eq_true_eq]
  rw [if_neg (not_le.mpr hb0), if_neg (not_lt.mpr hd0), if_neg (not_lt.mpr hh0),
    if_neg (not_lt.mpr hst0), if_neg (not_lt.mpr hv0), if_neg (not_lt.mpr hm0),
    if_neg (not_lt.mpr hbo0)]

lemma validate_pay_data_num (r : PayRowRaw) (b d h st v m bo : ℚ)
    (hb : r.base_salary = PyVal.num b) (hd : r.da = PyVal.num d)
    (hh : r.hra = PyVal.num h) (hst : r.stocks = PyVal.num st)
    (hv : r.vacation_tour = PyVal.num v) (hm : r.medical_benefits = PyVal.num m)
    (hbo : r.bonus_amount = PyVal.num bo) :
    (validate_pay_data r).1 = true ↔
      (20000 < b ∧ 0 ≤ d ∧ 0 ≤ h ∧ 0 ≤ st ∧ 0 ≤ v ∧ 0 ≤ m ∧ bo ≤ 25000) := by
  constructor
  · intro hres
    unfold validate_pay_data at hres
    rw [hb, hd, hh, hst, hv, hm, hbo] at hres
    simp only [pyFloat, fltLe, fltNeg, fltGt, decide_eq_true_eq] at hres
    split_ifs at hres <;> simp_all [not_le, not_lt]
  · rintro ⟨c1, c2, c3, c4, c5, c6, c7⟩
    rw [validate_pay_data_accepts r b d h st v m bo hb c1 hd c2 hh c3 hst c4 hv c5 hm c6 hbo c7]

def empMissingFirstName : EmpRowRaw := { empArjun with first_name := PyVal.nan }

/-- Counterexample for C5 as stated: an employee row whose `first_name` is
missing (NaN) is accepted by `validate_employee_data` — Python `str(nan)`
yields the alphabetic text `nan` (and the NaN-fill of the import path yields
`NA`), which satisfies the letters-only rule — contradicting the claim that
the validator returns invalid for every missing field value. -/
theorem missing_first_name_accepted_counterexample :
    empMissingFirstName.first_name = PyVal.nan ∧
    (validate_employee_data empMissingFirstName).1 = true := by
  exact ⟨rfl, by decide⟩

lemma vpd_fail_base_salary (q : PayRowRaw) (h : pyFloat q.base_salary = none) :
    (validate_pay_data q).1 = false := by
  unfold validate_pay_data
  rw [h]
  repeat' split
  all_goals first
    | rfl
    | simp_all

lemma vpd_fail_da (q : PayRowRaw) (h : pyFloat q.da = none) :
    (validate_pay_data q).1 = false := by
  unfold validate_pay_data
  rw [h]
  repeat' split
  all_goals first
    | rfl
    | simp_all

lemma vpd_fail_hra (q : PayRowRaw) (h : pyFloat q.hra = none) :
    (validate_pay_data q).1 = false := by
  unfold validate_pay_data
  rw [h]
  repeat' split
  all_goals first
    | rfl
    | simp_all

lemma vpd_fail_stocks (q : PayRowRaw) (h : pyFloat q.stocks = none) :
    (validate_pay_data q).1 = false := by
  unfold validate_pay_data
  rw [h]
  repeat' split
  all_goals first
    | rfl
    | simp_all

lemma vpd_fail_vacation_tour (q : PayRowRaw) (h : pyFloat q.vacation_tour = none) :
    (validate_pay_data q).1 = false := by
  unfold validate_pay_data
  rw [h]
  repeat' split
  all_goals first
    | rfl
    | simp_all

lemma vpd_fail_medical_benefits (q : PayRowRaw) (h : pyFloat q.medical_benefits = none) :
    (validate_pay_data q).1 = false := by
  unfold validate_pay_data
  rw [h]
  repeat' split
  all_goals first
    | rfl
    | simp_all

lemma vpd_fail_bonus_amount (q : PayRowRaw) (h : pyFloat q.bonus_amount = none) :
    (validate_pay_data q).1 = false := by
  unfold validate_pay_data
  rw [h]
  repeat' split
  all_goals first
    | rfl
    | simp_all

lemma ved_true_date (e : EmpRowRaw) (h : (validate_employee_data e).1 = true) :
    matchesDate (pyStr e.date_of_joining) = true := by
  unfold validate_employee_data at h
  cases hI : pyInt e.employee_id with
  | none => rw [hI] at h; simp at h
  | some eid =>
    rw [hI] at h
    split_ifs at h <;> simp_all [apply_ite Prod.fst]

/-- C5 (amended): the validators never raise past their boundary — every
parse failure is caught and returned as an invalid verdict — and a missing or
unparsable `employee_id`, `date_of_joining`, `ifsc_code` or a non-numeric pay
amount yields invalid; however a missing `first_name` or `last_name` is
stringified to alphabetic text that satisfies the letters-only rule, so such
a row is not rejected. -/
theorem validators_fail_closed_amended :
    ∀ (e : EmpRowRaw) (p : PayRowRaw),
      (pyInt e.employee_id = none → (validate_employee_data e).1 = false) ∧
      ((validate_employee_data e).1 = true → matchesDate (pyStr e.date_of_joining) = true) ∧
      validate_ifsc_code PyVal.nan = false ∧
      (pyFloat p.base_salary = none → (validate_pay_data p).1 = false) ∧
      (pyFloat p.da = none → (validate_pay_data p).1 = false) ∧
      (pyFloat p.hra = none → (validate_pay_data p).1 = false) ∧
      (pyFloat p.stocks = none → (validate_pay_data p).1 = false) ∧
      (pyFloat p.vacation_tour = none → (validate_pay_data p).1 = false) ∧
      (pyFloat p.medical_benefits = none → (validate_pay_data p).1 = false) ∧
      (pyFloat p.bonus_amount = none → (validate_pay_data p).1 = false) ∧
      matchesAlpha (pyStr PyVal.nan) = true := by
  intro e p
  refine ⟨?_, ved_true_date e, by decide, vpd_fail_base_salary p, vpd_fail_da p,
    vpd_fail_hra p, vpd_fail_stocks p, vpd_fail_vacation_tour p,
    vpd_fail_medical_benefits p, vpd_fail_bonus_amount p, by decide⟩
  intro h
  simp [validate_employee_data, h]

def empBadId : EmpRowRaw := { empArjun with employee_id := PyVal.s "abc" }

def payBadBase : PayRowRaw := { payArjun with base_salary := PyVal.s "notanumber" }

/-- Witness for C5 (amended): an unparsable employee id and a non-numeric
base salary are both rejected, not thrown. -/
theorem validators_fail_closed_amended_witness :
    (validate_employee_data empBadId).1 = false ∧
    (validate_pay_data payBadBase).1 = false :=
  ⟨(validators_fail_closed_amended empBadId payBadBase).1 (by decide),
   (validators_fail_closed_amended empBadId payBadBase).2.2.2.1 (by decide)⟩

/-- C7: with all other pay fields valid, a pay row with `base_salary`
exactly 20000 is rejected while 20000.01 is accepted (strict lower bound),
and a pay row with `bonus_amount` exactly 25000 is accepted while 25000.01
is rejected (non-strict upper bound). -/
theorem pay_boundary_bounds :
    (∀ (r : PayRowRaw) (d h st v m bo : ℚ),
      r.da = PyVal.num d → 0 ≤ d → r.hra = PyVal.num h → 0 ≤ h →
      r.stocks = PyVal.num st → 0 ≤ st → r.vacation_tour = PyVal.num v → 0 ≤ v →
      r.medical_benefits = PyVal.num m → 0 ≤ m →
      r.bonus_amount = PyVal.num bo → bo ≤ 25000 →
      (r.base_salary = PyVal.num 20000 → (validate_pay_data r).1 = false) ∧
      (r.base_salary = PyVal.num 20000.01 → (validate_pay_data r).1 = true)) ∧
    (∀ (r : PayRowRaw) (b d h st v m : ℚ),
      r.base_salary = PyVal.num b → 20000 < b → r.da = PyVal.num d → 0 ≤ d →
      r.hra = PyVal.num h → 0 ≤ h → r.stocks = PyVal.num st → 0 ≤ st →
      r.vacation_tour = PyVal.num v → 0 ≤ v → r.medical_benefits = PyVal.num m → 0 ≤ m →
      (r.bonus_amount = PyVal.num 25000 → (validate_pay_data r).1 = true) ∧
      (r.bonus_amount = PyVal.num 25000.01 → (validate_pay_data r).1 = false)) := by
  constructor
  · intro r d h st v m bo hd hd0 hh hh0 hst hst0 hv hv0 hm hm0 hbo hbo0
    constructor
    · intro hbase
      have hiff := validate_pay_data_num r 20000 d h st v m bo hbase hd hh hst hv hm hbo
      cases hres : (validate_pay_data r).1 with
      | false => rfl
      | true => exact absurd (hiff.mp hres).1 (by norm_num)
    · intro hbase
      exact (validate_pay_data_num r 20000.01 d h st v m bo hbase hd hh hst hv hm hbo).mpr
        ⟨by norm_num, hd0, hh0, hst0, hv0, hm0, hbo0⟩
  · intro r b d h st v m hb hb0 hd hd0 hh hh0 hst hst0 hv hv0 hm hm0
    constructor
    · intro hbon
      exact (validate_pay_data_num r b d h st v m 25000 hb hd hh hst hv hm hbon).mpr
        ⟨hb0, hd0, hh0, hst0, hv0, hm0, le_refl 25000⟩
    · intro hbon
      have hiff := validate_pay_data_num r b d h st v m 25000.01 hb hd hh hst hv hm hbon
      cases hres : (validate_pay_data r).1 with
      | false => rfl
      | true => exact absurd (hiff.mp hres).2.2.2.2.2.2 (by norm_num)

def payBoundary (bs bo : ℚ) : PayRowRaw :=
  { pay_id := 3, employee_id := 1234567, base_salary := .num bs,
    ta := .nan, da := .num 0, hra := .num 0, stocks := .num 0,
    vacation_tour := .num 0, uniform_allowance := .nan,
    medical_benefits := .num 0, bonus_amount := .num bo,
    other_allowances := .nan }

/-- Witness for C7: the four boundary rows evaluated concretely. -/
theorem pay_boundary_bounds_witness :
    (validate_pay_data (payBoundary 20000 0)).1 = false ∧
    (validate_pay_data (payBoundary 20000.01 0)).1 = true ∧
    (validate_pay_data (payBoundary 30000 25000)).1 = true ∧
    (validate_pay_data (payBoundary 30000 25000.01)).1 = false :=
  ⟨(pay_boundary_bounds.1 (payBoundary 20000 0) 0 0 0 0 0 0
      rfl le_rfl rfl le_rfl rfl le_rfl rfl le_rfl rfl le_rfl rfl (by norm_num)).1 rfl,
   (pay_boundary_bounds.1 (payBoundary 20000.01 0) 0 0 0 0 0 0
      rfl le_rfl rfl le_rfl rfl le_rfl rfl le_rfl rfl le_rfl rfl (by norm_num)).2 rfl,
   (pay_boundary_bounds.2 (payBoundary 30000 25000) 30000 0 0 0 0 0
      rfl (by norm_num) rfl le_rfl rfl le_rfl rfl le_rfl rfl le_rfl rfl le_rfl).1 rfl,
   (pay_boundary_bounds.2 (payBoundary 30000 25000.01) 30000 0 0 0 0 0
      rfl (by norm_num) rfl le_rfl rfl le_rfl rfl le_rfl rfl le_rfl rfl le_rfl).2 rfl⟩

/-- C10: `validate_pay_data` checks only `base_salary`, `da`, `hra`,
`stocks`, `vacation_tour`, `medical_benefits` and `bonus_amount`; a row whose
checked fields satisfy their rules is accepted as `(True, None)` with no
constraint on `ta`, `uniform_allowance` or `other_allowances` (negative
values included), the table CHECK constraints also pass, and the INSERT
tuple carries the `ta`/`uniform_allowance`/`other_allowances` values
unchanged. -/
theorem pay_validator_ignores_ta_uniform_other :
    ∀ (r : PayRowRaw) (b d h st v m bo : ℚ),
      r.base_salary = PyVal.num b → 20000 < b →
      r.da = PyVal.num d → 0 ≤ d →
      r.hra = PyVal.num h → 0 ≤ h →
      r.stocks = PyVal.num st → 0 ≤ st →
      r.vacation_tour = PyVal.num v → 0 ≤ v →
      r.medical_benefits = PyVal.num m → 0 ≤ m →
      r.bonus_amount = PyVal.num bo → bo ≤ 25000 →
      validate_pay_data r = (true, none) ∧
      payTableChecks b d h st v m bo = true ∧
      (∀ t : ℚ, r.ta = PyVal.num t → (payInsertValues r)[3]? = some (some t)) ∧
      (∀ u : ℚ, r.uniform_allowance = PyVal.num u → (payInsertValues r)[8]? = some (some u)) ∧
      (∀ o : ℚ, r.other_allowances = PyVal.num o → (payInsertValues r)[11]? = some (some o)) := by
  intro r b d h st v m bo hb hb0 hd hd0 hh hh0 hst hst0 hv hv0 hm hm0 hbo hbo0
  refine ⟨validate_pay_data_accepts r b d h st v m bo hb hb0 hd hd0 hh hh0 hst hst0
    hv hv0 hm hm0 hbo hbo0, ?_, ?_, ?_, ?_⟩
  · simp only [payTableChecks, Bool.and_eq_true, decide_eq_true_eq]
    tauto
  · intro t ht
    simp [payInsertValues, pyFloatFlat, pyFloat, ht]
  · intro u hu
    simp [payInsertValues, pyFloatFlat, pyFloat, hu]
  · intro o ho
    simp [payInsertValues, pyFloatFlat, pyFloat, ho]

def payNegTa : PayRowRaw :=
  { pay_id := 2, employee_id := 1234567, base_salary := .num 50000,
    ta := .num (-500), da := .num 10000, hra := .num 15000, stocks := .num 0,
    vacation_tour := .num 0, uniform_allowance := .num (-3),
    medical_benefits := .num 5000, bonus_amount := .num 8000,
    other_allowances := .num (-7) }

/-- Witness for C10: a row with negative `ta`, `uniform_allowance` and
`other_allowances` is accepted and its negative values persisted. -/
theorem pay_validator_ignores_ta_uniform_other_witness :
    validate_pay_data payNegTa = (true, none) ∧
    (payInsertValues payNegTa)[3]? = some (some ((-500 : ℚ))) ∧
    (payInsertValues payNegTa)[8]? = some (some ((-3 : ℚ))) :=
  ⟨(pay_validator_ignores_ta_uniform_other payNegTa 50000 10000 15000 0 0 5000 8000
      rfl (by norm_num) rfl (by norm_num) rfl (by norm_num) rfl le_rfl rfl le_rfl
      rfl (by norm_num) rfl (by norm_num)).1,
   (pay_validator_ignores_ta_uniform_other payNegTa 50000 10000 15000 0 0 5000 8000
      rfl (by norm_num) rfl (by norm_num) rfl (by norm_num) rfl le_rfl rfl le_rfl
      rfl (by norm_num) rfl (by norm_num)).2.2.1 (-500) rfl,
   (pay_validator_ignores_ta_uniform_other payNegTa 50000 10000 15000 0 0 5000 8000
      rfl (by norm_num) rfl (by norm_num) rfl (by norm_num) rfl le_rfl rfl le_rfl
      rfl (by norm_num) rfl (by norm_num)).2.2.2.1 (-3) rfl⟩

/-- C9: `connect_to_psu_db` makes at most 5 connection attempts, the i-th
recorded sleep between consecutive attempts is `retry_delay * i` seconds
(linearly increasing backoff, base delay 3), exhausting all 5 attempts is a
fatal error after sleeps 3, 6, 9, 12, and before any attempt the
schema-existence precondition over the throwaway administrative session is
consulted — its failure aborts with zero attempts and zero sleeps (no
retry). -/
theorem connect_bounded_retry_linear_backoff :
    ∀ (databases : List String) (attemptOk : ℕ → Bool),
      (verify_database_exists databases = false →
        connect_to_psu_db databases attemptOk = ⟨.errNoDatabase, 0, []⟩) ∧
      (connect_to_psu_db databases attemptOk).attempts ≤ max_retries ∧
      (connect_to_psu_db databases attemptOk).sleeps =
        (List.range (connect_to_psu_db databases attemptOk).sleeps.length).map
          (fun i => retry_delay * (i + 1)) ∧
      (attemptOk 0 = false → attemptOk 1 = false → attemptOk 2 = false →
        attemptOk 3 = false → attemptOk 4 = false →
        verify_database_exists databases = true →
        connect_to_psu_db databases attemptOk = ⟨.errExhausted, 5, [3, 6, 9, 12]⟩) := by
  intro databases attemptOk
  cases hdb : verify_database_exists databases with
  | false =>
    refine ⟨fun _ => ?_, ?_, ?_, ?_⟩ <;>
      simp [connect_to_psu_db, hdb, max_retries]
  | true =>
    have hrange : List.range max_retries = [0, 1, 2, 3, 4] := rfl
    rcases h0 : attemptOk 0 <;> rcases h1 : attemptOk 1 <;> rcases h2 : attemptOk 2 <;>
      rcases h3 : attemptOk 3 <;> rcases h4 : attemptOk 4 <;>
      simp [connect_to_psu_db, connectFrom, hdb, hrange, h0, h1, h2, h3, h4,
        max_retries, retry_delay, List.range_succ]

/-- Witness for C9: a catalog without the target database aborts untried; a
catalog with it but an unreachable server exhausts all five attempts with
sleeps 3, 6, 9, 12. -/
theorem connect_bounded_retry_linear_backoff_witness :
    connect_to_psu_db ["postgres"] (fun _ => false) = ⟨.errNoDatabase, 0, []⟩ ∧
    connect_to_psu_db ["postgres", "employeedb"] (fun _ => false) =
      ⟨.errExhausted, 5, [3, 6, 9, 12]⟩ :=
  ⟨(connect_bounded_retry_linear_backoff ["postgres"] (fun _ => false)).1 (by decide),
   (connect_bounded_retry_linear_backoff ["postgres", "employeedb"]
      (fun _ => false)).2.2.2 rfl rfl rfl rfl rfl (by decide)⟩
